import Mathlib

/-!
Verification development for the Nexus chat bot.

This file shallowly embeds the parts of the repository that the checked
properties are about: the moderation cog (`src/bot/cogs/Moderation.py`),
the help-command pagination (`src/bot/cogs/Help.py`), the utility cog
(`src/bot/cogs/Utility.py`) and the bot core's run entry point
(`src/bot/utils/subclasses/bot.py`).

Commands are embedded as pure functions from their inputs (invocation
context, target member, arguments, and the outcome of the underlying
platform call) to the ordered list of observable effects they produce:
user-facing error/success responses and platform API calls.
-/

/-- Outcome of the underlying platform call wrapped in try/except:
`ok` = the call succeeds, `forbidden` = the platform raises `Forbidden`,
`httpError` = the platform raises any other `HTTPException`. -/
inductive PlatformResult where
  | ok
  | forbidden
  | httpError
deriving DecidableEq

/-- An observable effect of one command invocation, in program order.
`errorMsg` is a `ctx.error(...)` response (the argument string),
`successMsg` is a `ctx.paginate(Embed(...))` response (the embed description),
the `call*` constructors are the outbound platform API calls. -/
inductive Effect where
  | errorMsg (msg : String)
  | successMsg (msg : String)
  | callBan (memberId : Nat) (deleteDays : Int) (reason : String)
  | callUnban (memberId : Nat) (reason : String)
  | callCreateRole (name : String) (permissions : Nat) (reason : String)
  | callSetChannelPerms (channelId : Nat) (roleName : String)
  | callAddRole (memberId : Nat) (roleName : String) (reason : String)
  | callRemoveRole (memberId : Nat) (roleName : String) (reason : String)
  | callKick (memberId : Nat) (reason : String)
  | callEditSlowmode (channelId : Nat) (rate : Int) (reason : String)
deriving DecidableEq

/-- `true` exactly on the platform API calls (the platform mutations /
mutation attempts), `false` on the pure user-facing responses. -/
def Effect.isPlatformCall : Effect → Bool
  | .errorMsg _ => false
  | .successMsg _ => false
  | _ => true

/-- The invocation context fields the moderation commands read:
`ctx.author.id`, `str(ctx.author)`, the position of `ctx.author.top_role`,
the position of `ctx.me.top_role`, and `ctx.channel.id`. -/
structure Ctx where
  authorId : Nat
  authorName : String
  authorTopRole : Nat
  meTopRole : Nat
  channelId : Nat
deriving DecidableEq

/-- The target member fields the moderation commands read: `member.id`,
`str(member)`, the position of `member.top_role`, and the names of the
roles in `member.roles`. -/
structure MemberInfo where
  id : Nat
  name : String
  topRole : Nat
  roles : List String
deriving DecidableEq

/-- The guild fields the mute/unmute commands read: the names of
`guild.roles` and the ids of `guild.channels`. -/
structure GuildInfo where
  roles : List String
  channels : List Nat
deriving DecidableEq

/-- Modelled from the spec: the helper `codeblocksafe` from the `utils`
package (its module is not included under src; only its callers are).
The spec's message templates render `codeblocksafe(member)` simply as the
target's display string inside the message, so it is modelled as the
identity on that display string. -/
def codeblocksafe (s : String) : String := s

/-- The audit-log reason string `f"{ctx.author} ({ctx.author.id}): {reason}"`
used by ban/unban/mute/unmute. -/
def auditReason (ctx : Ctx) (reason : String) : String :=
  ctx.authorName ++ " (" ++ toString ctx.authorId ++ "): " ++ reason

namespace Moderation

/-- Effects after `ctx.guild.ban(...)` in `_ban`: success embed, or the
`Forbidden` / `HTTPException` handler responses. -/
def banOutcome (pf : PlatformResult) (member : MemberInfo) : List Effect :=
  match pf with
  | .ok => [.successMsg ("```\nSuccessfully banned " ++ codeblocksafe member.name ++ "```")]
  | .forbidden => [.errorMsg "I couldn\x27t do that for some reason!"]
  | .httpError => [.errorMsg ("Banning " ++ codeblocksafe member.name ++ " failed!")]

/-- Embeds `Moderation._ban` (src/bot/cogs/Moderation.py, lines 48-85):
self-ban guard, delete_days range check (which does not return), then the
platform ban call with the unclamped `delete_days`, wrapped in
try/except. -/
def _ban (ctx : Ctx) (member : MemberInfo) (delete_days : Int)
    (reason : String) (pf : PlatformResult) : List Effect :=
  if member.id = ctx.authorId then
    [.errorMsg "You cannot ban yourself!"]
  else
    (if delete_days < 0 ∨ delete_days > 7 then
      [.errorMsg "You can only delete messages from a range 0-7 days!"]
    else []) ++
    .callBan member.id delete_days (auditReason ctx reason) :: banOutcome pf member

/-- Effects after `ctx.guild.unban(...)` in `_unban`. -/
def unbanOutcome (pf : PlatformResult) (member : MemberInfo) : List Effect :=
  match pf with
  | .ok => [.successMsg ("```\nSuccessfully unbanned " ++ codeblocksafe member.name ++ "```")]
  | .forbidden => [.errorMsg "I couldn\x27t do that for some reason!"]
  | .httpError => [.errorMsg ("Unbanning " ++ codeblocksafe member.name ++ " failed!")]

/-- Embeds `Moderation._unban` (src/bot/cogs/Moderation.py, lines 95-133):
self-unban guard, the two role-hierarchy guards (strict `<` comparisons),
then the platform unban call wrapped in try/except. -/
def _unban (ctx : Ctx) (member : MemberInfo) (reason : String)
    (pf : PlatformResult) : List Effect :=
  if member.id = ctx.authorId then
    [.errorMsg "You cannot unban yourself!"]
  else if ctx.authorTopRole < member.topRole then
    [.errorMsg (codeblocksafe member.name ++ " has a higher role than you!")]
  else if ctx.meTopRole < member.topRole then
    [.errorMsg (codeblocksafe member.name ++ " has a higher role than me!")]
  else
    .callUnban member.id (auditReason ctx reason) :: unbanOutcome pf member

/-- Effects after `member.add_roles(...)` in `_mute`. -/
def muteOutcome (pf : PlatformResult) (member : MemberInfo) : List Effect :=
  match pf with
  | .ok => [.successMsg ("```\nSuccessfully muted " ++ codeblocksafe member.name ++ "```")]
  | .forbidden => [.errorMsg "I couldn\x27t do that for some reason!"]
  | .httpError => [.errorMsg ("Muting " ++ codeblocksafe member.name ++ " failed!")]

/-- Embeds `Moderation._mute` (src/bot/cogs/Moderation.py, lines 141-197):
self-mute guard, the two role-hierarchy guards, lazy creation of the
"Muted" role (with a channel-permission overwrite per guild channel) when
absent, the already-muted check, then `add_roles` wrapped in try/except.
When the role is freshly created the member cannot already carry it, so
the already-muted check is only reachable when the role pre-exists. -/
def _mute (ctx : Ctx) (guild : GuildInfo) (member : MemberInfo)
    (reason : String) (pf : PlatformResult) : List Effect :=
  if member.id = ctx.authorId then
    [.errorMsg "You cannot mute yourself!"]
  else if ctx.authorTopRole < member.topRole then
    [.errorMsg (codeblocksafe member.name ++ " has a higher role than you!")]
  else if ctx.meTopRole < member.topRole then
    [.errorMsg (codeblocksafe member.name ++ " has a higher role than me!")]
  else if "Muted" ∈ guild.roles then
    if "Muted" ∈ member.roles then
      [.errorMsg (codeblocksafe member.name ++ " is already muted!")]
    else
      .callAddRole member.id "Muted" (auditReason ctx reason) :: muteOutcome pf member
  else
    .callCreateRole "Muted" 66560 "Mute command needs Muted role" ::
    guild.channels.map (fun ch => .callSetChannelPerms ch "Muted") ++
    .callAddRole member.id "Muted" (auditReason ctx reason) :: muteOutcome pf member

/-- Effects after `member.remove_roles(...)` in `_unmute`. -/
def unmuteOutcome (pf : PlatformResult) (member : MemberInfo) : List Effect :=
  match pf with
  | .ok => [.successMsg ("```\nSuccessfully unmuted " ++ codeblocksafe member.name ++ "```")]
  | .forbidden => [.errorMsg "I couldn\x27t do that for some reason!"]
  | .httpError => [.errorMsg ("Unmuting " ++ codeblocksafe member.name ++ " failed!")]

/-- Embeds `Moderation._unmute` (src/bot/cogs/Moderation.py, lines
203-246): self-unmute guard, the two role-hierarchy guards, the
not-muted check, then `remove_roles` wrapped in try/except. -/
def _unmute (ctx : Ctx) (guild : GuildInfo) (member : MemberInfo)
    (reason : String) (pf : PlatformResult) : List Effect :=
  if member.id = ctx.authorId then
    [.errorMsg "You cannot unmute yourself!"]
  else if ctx.authorTopRole < member.topRole then
    [.errorMsg (codeblocksafe member.name ++ " has a higher role than you!")]
  else if ctx.meTopRole < member.topRole then
    [.errorMsg (codeblocksafe member.name ++ " has a higher role than me!")]
  else if ¬ ("Muted" ∈ guild.roles) ∨ ¬ ("Muted" ∈ member.roles) then
    [.errorMsg (codeblocksafe member.name ++ " is not muted!")]
  else
    .callRemoveRole member.id "Muted" (auditReason ctx reason) :: unmuteOutcome pf member

/-- Effects after `ctx.guild.kick(...)` in `_kick`. Note: the source's
`HTTPException` handler for kick really says "Unmuting ... failed!"
(src/bot/cogs/Moderation.py line 292); the embedding preserves this. -/
def kickOutcome (pf : PlatformResult) (member : MemberInfo) : List Effect :=
  match pf with
  | .ok => [.successMsg ("```\nSuccessfully kicked " ++ codeblocksafe member.name ++ "```")]
  | .forbidden => [.errorMsg "I couldn\x27t do that for some reason!"]
  | .httpError => [.errorMsg ("Unmuting " ++ codeblocksafe member.name ++ " failed!")]

/-- Embeds `Moderation._kick` (src/bot/cogs/Moderation.py, lines 256-292):
self-kick guard, the two role-hierarchy guards, then the platform kick
call (with the raw reason, not the audit-formatted one) wrapped in
try/except. -/
def _kick (ctx : Ctx) (member : MemberInfo) (reason : String)
    (pf : PlatformResult) : List Effect :=
  if member.id = ctx.authorId then
    [.errorMsg "You can\x27t kick yourself!"]
  else if ctx.authorTopRole < member.topRole then
    [.errorMsg (codeblocksafe member.name ++ " has a higher role than you!")]
  else if ctx.meTopRole < member.topRole then
    [.errorMsg (codeblocksafe member.name ++ " has a higher role than me!")]
  else
    .callKick member.id reason :: kickOutcome pf member

/-- Effects after `channel.edit(...)` in `_slowmode`. -/
def slowmodeOutcome (pf : PlatformResult) (rate : Int) : List Effect :=
  match pf with
  | .ok => [.successMsg ("```\nSuccessfully changed the slowmode to " ++ toString rate ++ "```")]
  | .forbidden => [.errorMsg "I couldn\x27t do that for some reason!"]
  | .httpError => [.errorMsg "Changing slowmode failed!"]

/-- Embeds `Moderation._slowmode` (src/bot/cogs/Moderation.py, lines
298-322): clamps the rate with `max(min(rate, 21600), 0)`, defaults the
channel to the current one, then edits the channel wrapped in try/except
and reports the clamped rate. -/
def _slowmode (ctx : Ctx) (channel : Option Nat) (rate : Int)
    (pf : PlatformResult) : List Effect :=
  let rate2 := max (min rate 21600) 0
  let ch := channel.getD ctx.channelId
  .callEditSlowmode ch rate2
      (ctx.authorName ++ " (" ++ toString ctx.authorId ++ "): Slowmode command invoked") ::
    slowmodeOutcome pf rate2

end Moderation

namespace NexusHelp

/-- The pagination constant `PER_PAGE` from src/bot/cogs/Help.py. -/
def PER_PAGE : Nat := 10

/-- Embeds the grouping expression of `NexusHelp._get_cog_help`
(src/bot/cogs/Help.py, lines 75-77):
`[commands[i:PER_PAGE] for i in range(0, len(commands), PER_PAGE)]`.
The Python slice `commands[i:PER_PAGE]` is `(commands.drop i).take (PER_PAGE - i)`
for a natural `i` (empty once `i ≥ PER_PAGE`), and
`range(0, n, PER_PAGE)` has `⌈n / PER_PAGE⌉` elements. -/
def groupedPages {α : Type} (commands : List α) : List (List α) :=
  (List.range' 0 ((commands.length + PER_PAGE - 1) / PER_PAGE) PER_PAGE).map
    (fun i => (commands.drop i).take (PER_PAGE - i))

/-- The per-page embed descriptions of `_get_cog_help`: each page joins
`f"{c.qualified_name}: {c.brief}"` lines; a command is modelled as the
pair (qualified name, brief). -/
def cogHelpPages (commands : List (String × String)) : List String :=
  (groupedPages commands).map
    (fun g => String.intercalate "\n" (g.map (fun c => c.1 ++ ": " ++ c.2)))

/-- The delivered per-module help: a single embed or a list of embeds. -/
inductive CogHelp where
  | single (description : String)
  | multi (descriptions : List String)
deriving DecidableEq

/-- Embeds the tail of `NexusHelp._get_cog_help` (src/bot/cogs/Help.py,
lines 79-92): build one embed per group and return `embeds[0]` when
exactly one page results, the whole list otherwise. -/
def _get_cog_help (commands : List (String × String)) : CogHelp :=
  let embeds := cogHelpPages commands
  if embeds.length = 1 then .single (embeds.headD "") else .multi embeds

end NexusHelp

/-- `true` when `pat` is a prefix of `l` (character-list version of
Python's startswith, used to build the substring test). -/
def charsHasPre : List Char → List Char → Bool
  | [], _ => true
  | _ :: _, [] => false
  | p :: ps, c :: cs => p = c && charsHasPre ps cs

/-- `true` when `pat` occurs contiguously in `l`. -/
def charsHasSub (pat : List Char) : List Char → Bool
  | [] => charsHasPre pat []
  | c :: cs => charsHasPre pat (c :: cs) || charsHasSub pat cs

/-- Python's `pat in s` substring test on strings. -/
def containsSub (s pat : String) : Bool :=
  charsHasSub pat.toList s.toList

/-- Python's `s.lower()` on the ASCII strings in play (maps `A`-`Z` to
`a`-`z`, the identity elsewhere). -/
def pyLower (s : String) : String :=
  String.mk (s.toList.map Char.toLower)

/-- Fuel-driven core of non-overlapping left-to-right replacement; the
fuel is an upper bound on the scan steps and each step consumes at least
one character, so calling it with the input's length never exhausts it. -/
def pyReplaceAux (pat rep : List Char) : Nat → List Char → List Char
  | _, [] => []
  | 0, l => l
  | fuel + 1, c :: cs =>
    if charsHasPre pat (c :: cs) then
      rep ++ pyReplaceAux pat rep fuel (List.drop (pat.length - 1) cs)
    else
      c :: pyReplaceAux pat rep fuel cs

/-- Python's `s.replace(pat, rep)` (all non-overlapping occurrences,
left to right) for non-empty `pat`. -/
def pyReplace (s pat rep : String) : String :=
  String.mk (pyReplaceAux pat.toList rep.toList s.toList.length s.toList)

/-- Python's `str.isspace` on a single character (the whitespace set
`str.strip()` removes). -/
def pyIsSpace (c : Char) : Bool :=
  c = ' ' || c = '\t' || c = '\n' || c = '\r' || c = '\x0b' || c = '\x0c'

/-- Python's `s.strip()`: removes leading and trailing whitespace. -/
def pyStrip (s : String) : String :=
  String.mk (((s.toList.dropWhile pyIsSpace).reverse.dropWhile pyIsSpace).reverse)

namespace Utility

/-- The `DESTINATIONS` alias table (src/bot/cogs/Utility.py, lines 59-65). -/
def DESTINATIONS : List (String × String) :=
  [("dpy", "https://discordpy.readthedocs.io/en/stable"),
   ("dpy2", "https://discordpy.readthedocs.io/en/master"),
   ("edpy", "https://enhanced-dpy.readthedocs.io/en/latest"),
   ("py", "https://docs.python.org/3"),
   ("py2", "https://docs.python.org/2")]

/-- One character of the body class of `URL_REGEX`
(src/bot/cogs/Utility.py, line 66):
`[a-zA-Z] | [0-9] | [$-_@.&+] | [!*(),] | %[0-9a-fA-F][0-9a-fA-F]`.
`[$-_@.&+]` is the character range from `$` (0x24) to `_` (0x5F) plus
`@ . & +` (each already inside that range), and the `%hh` alternative
begins with `%` (0x25), also inside it, so a single such character
already extends a prefix match. -/
def urlBodyChar (c : Char) : Bool :=
  (('a' ≤ c && c ≤ 'z') || ('A' ≤ c && c ≤ 'Z') || ('0' ≤ c && c ≤ '9')
    || ('$' ≤ c && c ≤ '_') || c = '!' || c = '*' || c = '(' || c = ')' || c = ',')

/-- Embeds `re.match(URL_REGEX, arg) is not None`: the regex
`http[s]?://(...)+` matches a prefix of `arg` exactly when `arg` starts
with `http://` or `https://` followed by at least one body character. -/
def matchesUrlRegex (s : String) : Bool :=
  match s.toList with
  | 'h' :: 't' :: 't' :: 'p' :: 's' :: ':' :: '/' :: '/' :: c :: _ => urlBodyChar c
  | 'h' :: 't' :: 't' :: 'p' :: ':' :: '/' :: '/' :: c :: _ => urlBodyChar c
  | _ => false

/-- Embeds `IdevisionLocation.convert` (src/bot/cogs/Utility.py, lines
69-95): the literal "list" passes through; the synonym rewrites are
applied in order, each re-examining the (possibly rebound) argument;
then a rebound value that is a `DESTINATIONS` key or matches the URL
regex is accepted, anything else raises `BadArgument`. -/
def IdevisionLocation.convert (arg : String) : Except String String :=
  if pyLower arg = "list" then .ok arg
  else
    let a1 := if pyLower arg ∈ ["discord.py", "discordpy"] then "dpy" else arg
    let a2 := if pyLower a1 ∈ ["discord.py2", "discord.py-2", "discordpy2", "discordpy-2", "dpy-2"]
      then "dpy2" else a1
    let a3 := if pyLower a2 ∈ ["enhanced-discord.py", "enhanced-discordpy"] then "edpy" else a2
    let a4 := if pyLower a3 ∈ ["python", "python3", "py3"] then "py" else a3
    let a5 := if pyLower a4 ∈ ["python2"] then "py2" else a4
    if (List.lookup a5 DESTINATIONS).isSome then .ok a5
    else if matchesUrlRegex a5 then .ok a5
    else .error (a5 ++ " is not a valid rtfm location!")

/-- The documentation base URL the rtfm command resolves a location
input to: the converted alias looked up in `DESTINATIONS`
(`self.rtfm_destinations` is exactly `DESTINATIONS`). -/
def rtfmResolve (arg : String) : Option String :=
  match IdevisionLocation.convert arg with
  | .ok a => List.lookup a DESTINATIONS
  | .error _ => none

/-- One line of the redirect-chain listing in `_redirectcheck`
(src/bot/cogs/Utility.py, lines 128-134): the hop is rendered plain when
`"grabify.link" not in url or "iplogger.org" not in url`, and with the
warning marker otherwise (so only when it contains both substrings). -/
def redirectLine (u : String) : String :=
  if !(containsSub u "grabify.link") || !(containsSub u "iplogger.org") then u
  else "⚠ " ++ u

/-- The service named by the warning sentence in `_redirectcheck`
(src/bot/cogs/Utility.py, line 143). -/
def warningService (urls : String) : String :=
  if containsSub urls "grabify.link" then "a grabify.link"
  else if containsSub urls "iplogger.org" then "an iplogger.org"
  else "a logging"

/-- The full warning sentence of `_redirectcheck` (line 143). -/
def warningMessage (urls : String) : String :=
  "WARNING! This link contains " ++ warningService urls ++
    " redirect and could be being used maliciously. Proceed with caution."

/-- The response of `_redirectcheck`: the chain embed description, or the
no-redirect error. -/
inductive RedirectResponse where
  | chain (description : String)
  | noRedirect (msg : String)
deriving DecidableEq

/-- Embeds the response logic of `Utility._redirectcheck`
(src/bot/cogs/Utility.py, lines 114-151), given the already-fetched
redirect chain `history` (the original request's hop followed by each
redirect hop, i.e. `list(resp.history) + [resp]`). The listing joins the
rendered hops of `history[1:]`; when it is non-empty the embed
description is built (appending the warning sentence only when a marker
is present) and stripped, otherwise the "does not redirect" error is
sent. -/
def _redirectcheck (url : String) (history : List String) : RedirectResponse :=
  let urls := String.intercalate "\n" ((history.drop 1).map redirectLine)
  if urls ≠ "" then
    .chain (pyStrip ("```\n" ++ urls ++ "```\n" ++
      (if containsSub urls "⚠" then warningMessage urls else "")))
  else
    .noRedirect (url ++ " does not redirect!")

/-- The attachment-fallback step of `Utility._ocr`
(src/bot/cogs/Utility.py, lines 255-260): when no image resolved yet,
the invoking message's first attachment is read, and then, when the
message is a reply whose resolved referenced message has attachments,
that message's first attachment is read over the top of it. The net
value is the reply's first attachment when one exists, else the own
first attachment, else the unresolved value. -/
def ocrResolveAttachments (img : String) (ownAtts : List String)
    (refAtts : Option (List String)) : String :=
  if img = "" then
    match refAtts with
    | some (y :: _) => y
    | _ =>
      match ownAtts with
      | [] => img
      | x :: _ => x
  else img

/-- The final decode step of `_ocr`: an unresolved (empty) image is the
"Please attach a valid image!" error. -/
def ocrFinish (img : String) (ownAtts : List String)
    (refAtts : Option (List String)) (invert : Bool) : Except String (String × Bool) :=
  let img2 := ocrResolveAttachments img ownAtts refAtts
  if img2 = "" then .error "Please attach a valid image!" else .ok (img2, invert)

/-- Embeds the image-source resolution of `Utility._ocr`
(src/bot/cogs/Utility.py, lines 236-265). `image0` is the inline text
argument ("" for absent), `ownAtts` the invoking message's attachment
payloads, `refAtts` the resolved replied-to message's attachment
payloads when the message is a reply, and `fetch` the URL fetch
(`none` = `InvalidURL`). Returns the payload handed to the OCR engine
together with the inversion flag, or the attach-a-valid-image error. -/
def _ocr (image0 : String) (ownAtts : List String)
    (refAtts : Option (List String)) (fetch : String → Option String) :
    Except String (String × Bool) :=
  if image0 = "" then
    ocrFinish "" ownAtts refAtts false
  else
    let invert := containsSub image0 "--invert"
    let image1 := if containsSub image0 "--invert"
      then pyReplace image0 "--invert" "" else image0
    if image1 = "" then
      ocrFinish image1 ownAtts refAtts invert
    else
      match fetch (pyStrip image1) with
      | none => .error "Please attach a valid image!"
      | some payload => ocrFinish payload ownAtts refAtts invert

end Utility

/-- Embeds `Nexus.run` (src/bot/utils/subclasses/bot.py, lines 47-50):
every positional and keyword argument is discarded; the token handed to
the underlying `Bot.run` is always `getenv("TOKEN")`. The returned value
is the token the connect is attempted with. -/
def Nexus.run (env : String → Option String) (_args : List String)
    (_kwargs : List (String × String)) : Option String :=
  let TOKEN := env "TOKEN"
  TOKEN

deriving instance DecidableEq for Except

/-- The role-hierarchy rejection response shared by unban/mute/unmute/kick:
the "higher role than you" error when the invoker's top role is below the
target's, else the "higher role than me" error (reachable when the bot's
top role is below the target's). -/
def hierarchyError (ctx : Ctx) (member : MemberInfo) : List Effect :=
  if ctx.authorTopRole < member.topRole then
    [.errorMsg (codeblocksafe member.name ++ " has a higher role than you!")]
  else
    [.errorMsg (codeblocksafe member.name ++ " has a higher role than me!")]

/-- C1 (counterexample): the claim demands rejection already when the
target's top role is merely equal to the invoker's. With author and
target top roles both at position 5 (and the bot's above both), the kick
command issues the platform kick and reports success instead of the
hierarchy error, so the claim as stated is false. -/
theorem c1_role_hierarchy_counterexample :
    (⟨2, "Bob", 5, []⟩ : MemberInfo).topRole ≥ (⟨1, "Alice", 5, 9, 100⟩ : Ctx).authorTopRole ∧
    Moderation._kick ⟨1, "Alice", 5, 9, 100⟩ ⟨2, "Bob", 5, []⟩ "No reason provided" .ok =
      [.callKick 2 "No reason provided", .successMsg "```\nSuccessfully kicked Bob```"] := by
  decide

/-- C1 (amended): for unban, mute, unmute and kick, whenever the target's
top role is strictly greater than the invoking user's top role or
strictly greater than the bot's top role (and the target is not the
invoker), the command responds with the corresponding "has a higher role
than you/me!" error and performs no platform mutation. -/
theorem c1_role_hierarchy_strict (ctx : Ctx) (guild : GuildInfo) (member : MemberInfo)
    (reason : String) (pf : PlatformResult)
    (hself : member.id ≠ ctx.authorId)
    (hrole : ctx.authorTopRole < member.topRole ∨ ctx.meTopRole < member.topRole) :
    Moderation._unban ctx member reason pf = hierarchyError ctx member ∧
    Moderation._mute ctx guild member reason pf = hierarchyError ctx member ∧
    Moderation._unmute ctx guild member reason pf = hierarchyError ctx member ∧
    Moderation._kick ctx member reason pf = hierarchyError ctx member ∧
    ∀ e ∈ hierarchyError ctx member, e.isPlatformCall = false := by
  by_cases h : ctx.authorTopRole < member.topRole
  · simp [Moderation._unban, Moderation._mute, Moderation._unmute, Moderation._kick,
      hierarchyError, hself, h, Effect.isPlatformCall]
  · rcases hrole with h2 | h2
    · exact absurd h2 h
    · simp [Moderation._unban, Moderation._mute, Moderation._unmute, Moderation._kick,
        hierarchyError, hself, h, h2, Effect.isPlatformCall]

/-- C1 (witness): a concrete instance of the amended theorem, with the
target (id 2, top role 7) strictly above the invoker (id 1, top role 5). -/
theorem c1_role_hierarchy_strict_witness :
    (⟨2, "Bob", 7, []⟩ : MemberInfo).id ≠ (⟨1, "Alice", 5, 9, 100⟩ : Ctx).authorId ∧
    Moderation._kick ⟨1, "Alice", 5, 9, 100⟩ ⟨2, "Bob", 7, []⟩ "No reason provided" .ok =
      [.errorMsg "Bob has a higher role than you!"] ∧
    Moderation._unban ⟨1, "Alice", 5, 9, 100⟩ ⟨2, "Bob", 7, []⟩ "No reason provided" .ok =
      [.errorMsg "Bob has a higher role than you!"] := by
  have h := c1_role_hierarchy_strict ⟨1, "Alice", 5, 9, 100⟩ ⟨[], []⟩ ⟨2, "Bob", 7, []⟩
    "No reason provided" .ok (by decide) (Or.inl (by decide))
  exact ⟨by decide, h.2.2.2.1.trans (by decide), h.1.trans (by decide)⟩

/-- C3: for a non-self target, an out-of-range delete_days emits the
range-error message and execution continues: the platform ban call is
still issued with the unclamped value; delete_days in [0, 7] emits no
range error. -/
theorem c3_ban_delete_days_range (ctx : Ctx) (member : MemberInfo) (delete_days : Int)
    (reason : String) (pf : PlatformResult) (hself : member.id ≠ ctx.authorId) :
    ((delete_days < 0 ∨ 7 < delete_days) →
      Moderation._ban ctx member delete_days reason pf =
        .errorMsg "You can only delete messages from a range 0-7 days!" ::
        .callBan member.id delete_days (auditReason ctx reason) ::
        Moderation.banOutcome pf member) ∧
    (0 ≤ delete_days → delete_days ≤ 7 →
      Moderation._ban ctx member delete_days reason pf =
        .callBan member.id delete_days (auditReason ctx reason) ::
        Moderation.banOutcome pf member) := by
  constructor
  · intro h
    simp [Moderation._ban, hself, h]
  · intro h0 h7
    have h : ¬ (delete_days < 0 ∨ 7 < delete_days) := by omega
    simp [Moderation._ban, hself, h]

/-- C3 (witness): delete_days = 8 emits the range error yet bans with 8;
delete_days = 0 bans without the range error. -/
theorem c3_ban_delete_days_range_witness :
    (⟨2, "Bob", 3, []⟩ : MemberInfo).id ≠ (⟨1, "Alice", 5, 9, 100⟩ : Ctx).authorId ∧
    ((8 : Int) < 0 ∨ (7 : Int) < 8) ∧
    Moderation._ban ⟨1, "Alice", 5, 9, 100⟩ ⟨2, "Bob", 3, []⟩ 8 "No reason provided" .ok =
      [.errorMsg "You can only delete messages from a range 0-7 days!",
       .callBan 2 8 "Alice (1): No reason provided",
       .successMsg "```\nSuccessfully banned Bob```"] ∧
    Moderation._ban ⟨1, "Alice", 5, 9, 100⟩ ⟨2, "Bob", 3, []⟩ 0 "No reason provided" .ok =
      [.callBan 2 0 "Alice (1): No reason provided",
       .successMsg "```\nSuccessfully banned Bob```"] := by
  have h := c3_ban_delete_days_range ⟨1, "Alice", 5, 9, 100⟩ ⟨2, "Bob", 3, []⟩ 8
    "No reason provided" .ok (by decide)
  have h0 := c3_ban_delete_days_range ⟨1, "Alice", 5, 9, 100⟩ ⟨2, "Bob", 3, []⟩ 0
    "No reason provided" .ok (by decide)
  exact ⟨by decide, by decide,
    (h.1 (by decide)).trans (by decide),
    (h0.2 (by decide) (by decide)).trans (by decide)⟩

/-- C5: targeting yourself with ban, unban, mute, unmute or kick always
yields exactly the corresponding self-targeting error (the source's
strings: "You cannot ban/unban/mute/unmute yourself!" and
"You can't kick yourself!") and no platform call, whatever the other
arguments, guild state or platform outcome. -/
theorem c5_self_target_guard (ctx : Ctx) (guild : GuildInfo) (member : MemberInfo)
    (delete_days : Int) (reason : String) (pf : PlatformResult)
    (hself : member.id = ctx.authorId) :
    Moderation._ban ctx member delete_days reason pf = [.errorMsg "You cannot ban yourself!"] ∧
    Moderation._unban ctx member reason pf = [.errorMsg "You cannot unban yourself!"] ∧
    Moderation._mute ctx guild member reason pf = [.errorMsg "You cannot mute yourself!"] ∧
    Moderation._unmute ctx guild member reason pf = [.errorMsg "You cannot unmute yourself!"] ∧
    Moderation._kick ctx member reason pf = [.errorMsg "You can\x27t kick yourself!"] := by
  simp [Moderation._ban, Moderation._unban, Moderation._mute, Moderation._unmute,
    Moderation._kick, hself]

/-- C5 (witness): a concrete self-targeting invocation (author id 1,
target id 1) for ban and kick, with an invalid delete_days and a
would-succeed platform, still yields only the self-targeting error. -/
theorem c5_self_target_guard_witness :
    (⟨1, "Alice", 5, []⟩ : MemberInfo).id = (⟨1, "Alice", 5, 9, 100⟩ : Ctx).authorId ∧
    Moderation._ban ⟨1, "Alice", 5, 9, 100⟩ ⟨1, "Alice", 5, []⟩ 99 "r" .ok =
      [.errorMsg "You cannot ban yourself!"] ∧
    Moderation._kick ⟨1, "Alice", 5, 9, 100⟩ ⟨1, "Alice", 5, []⟩ "r" .ok =
      [.errorMsg "You can\x27t kick yourself!"] := by
  have h := c5_self_target_guard ⟨1, "Alice", 5, 9, 100⟩ ⟨[], []⟩ ⟨1, "Alice", 5, []⟩
    99 "r" .ok (by decide)
  exact ⟨by decide, h.1, h.2.2.2.2⟩

/-- C6 (code evaluated at the failing input): a kick whose platform call
fails with a non-authorization HTTP error responds with
"Unmuting Bob failed!" — a message naming a different action — while the
authorization-failure branch does respond with the generic
"I couldn't do that for some reason!". -/
theorem c6_kick_failure_message_mismatch :
    Moderation._kick ⟨1, "Alice", 5, 9, 100⟩ ⟨2, "Bob", 3, []⟩ "No reason provided" .httpError =
      [.callKick 2 "No reason provided", .errorMsg "Unmuting Bob failed!"] ∧
    Moderation._kick ⟨1, "Alice", 5, 9, 100⟩ ⟨2, "Bob", 3, []⟩ "No reason provided" .forbidden =
      [.callKick 2 "No reason provided", .errorMsg "I couldn\x27t do that for some reason!"] := by
  decide

/-- C8: for every integer input rate, the rate applied to the channel
and the rate reported in the success message both equal
`max(min(rate, 21600), 0)`; in particular input 999999 applies and
reports 21600 and input -5 applies and reports 0. -/
theorem c8_slowmode_clamp (ctx : Ctx) (channel : Option Nat) (rate : Int)
    (pf : PlatformResult) :
    Moderation._slowmode ctx channel rate pf =
      .callEditSlowmode (channel.getD ctx.channelId) (max (min rate 21600) 0)
        (ctx.authorName ++ " (" ++ toString ctx.authorId ++ "): Slowmode command invoked") ::
      Moderation.slowmodeOutcome pf (max (min rate 21600) 0) ∧
    Moderation._slowmode ctx channel 999999 .ok =
      [.callEditSlowmode (channel.getD ctx.channelId) 21600
        (ctx.authorName ++ " (" ++ toString ctx.authorId ++ "): Slowmode command invoked"),
       .successMsg "```\nSuccessfully changed the slowmode to 21600```"] ∧
    Moderation._slowmode ctx channel (-5) .ok =
      [.callEditSlowmode (channel.getD ctx.channelId) 0
        (ctx.authorName ++ " (" ++ toString ctx.authorId ++ "): Slowmode command invoked"),
       .successMsg "```\nSuccessfully changed the slowmode to 0```"] := by
  have h1 : max (min (999999 : Int) 21600) 0 = 21600 := by decide
  have h2 : max (min (-5 : Int) 21600) 0 = 0 := by decide
  refine ⟨rfl, ?_, ?_⟩ <;>
    · simp [Moderation._slowmode, Moderation.slowmodeOutcome, h1, h2]
      rfl

/-- C4 (code evaluated at the failing input): the per-module help
grouping `[commands[i:PER_PAGE] for i in range(0, len(commands), PER_PAGE)]`
yields one full page for 10 commands, but for 11 commands the second
page is empty (sizes 10 and 0, not 10 and 1), because the slice's upper
bound is the constant `PER_PAGE` rather than `i + PER_PAGE`; the second
embed description is correspondingly empty. -/
theorem c4_help_pagination_empty_second_page :
    NexusHelp.groupedPages (List.range 10) = [List.range 10] ∧
    NexusHelp.groupedPages (List.range 11) = [List.range 10, []] ∧
    (NexusHelp.groupedPages (List.range 11)).map List.length = [10, 0] ∧
    NexusHelp.cogHelpPages
        (List.range 11 |>.map (fun i => ("cmd" ++ toString i, "brief"))) =
      ["cmd0: brief\ncmd1: brief\ncmd2: brief\ncmd3: brief\ncmd4: brief\ncmd5: brief\ncmd6: brief\ncmd7: brief\ncmd8: brief\ncmd9: brief", ""] := by
  refine ⟨by decide, by decide, by decide, rfl⟩

/-- C2 (code evaluated at the failing input): a redirect chain whose
second hop contains "grabify.link" (and not "iplogger.org") is rendered
without the warning marker and without the warning sentence, because the
source flags a hop only when it contains both substrings
(`"grabify.link" not in url or "iplogger.org" not in url` selects the
plain rendering). A chain with no redirects does yield the
"does not redirect!" error. -/
theorem c2_redirectcheck_flag_requires_both :
    Utility.redirectLine "https://grabify.link/abc" = "https://grabify.link/abc" ∧
    Utility._redirectcheck "https://t.co/x"
        ["https://t.co/x", "https://grabify.link/abc", "https://end.example/b"] =
      .chain "```\nhttps://grabify.link/abc\nhttps://end.example/b```" ∧
    containsSub "```\nhttps://grabify.link/abc\nhttps://end.example/b```" "⚠" = false ∧
    containsSub "```\nhttps://grabify.link/abc\nhttps://end.example/b```" "WARNING" = false ∧
    Utility._redirectcheck "https://ok.example/" ["https://ok.example/"] =
      .noRedirect "https://ok.example/ does not redirect!" := by
  exact ⟨rfl, rfl, by decide, by decide, rfl⟩

/-- C7 (counterexample): when the invoking message has its own
attachment and is also a reply whose referenced message has attachments,
the ocr command uses the replied-to message's attachment, not the
invoking message's own attachment as the claim states. -/
theorem c7_ocr_reply_precedence_counterexample :
    Utility._ocr "" ["own-attachment"] (some ["reply-attachment"]) (fun _ => none) =
      .ok ("reply-attachment", false) ∧
    Utility._ocr "" ["own-attachment"] (some ["reply-attachment"]) (fun _ => none) ≠
      .ok ("own-attachment", false) := by
  exact ⟨rfl, by decide⟩

/-- C7 (amended): the ocr image source resolution is: (1) a non-empty
inline text argument (with "--invert" stripped and triggering inversion)
is fetched as a URL and, when the fetch yields a non-empty payload, that
payload is used; otherwise (2) if the invoking message is a reply whose
referenced message has attachments, the reply's first attachment is used
— taking precedence over the invoking message's own attachment — and
(3) the invoking message's own first attachment is used only when no
reply attachment exists. -/
theorem c7_ocr_resolution_amended (image0 : String) (ownAtts : List String)
    (refAtts : Option (List String)) (fetch : String → Option String) :
    (∀ y ys, refAtts = some (y :: ys) → y ≠ "" →
      Utility._ocr "" ownAtts refAtts fetch = .ok (y, false)) ∧
    (∀ x xs, (refAtts = none ∨ refAtts = some []) → ownAtts = x :: xs → x ≠ "" →
      Utility._ocr "" ownAtts refAtts fetch = .ok (x, false)) ∧
    (∀ payload, image0 ≠ "" →
      (if containsSub image0 "--invert" then pyReplace image0 "--invert" "" else image0) ≠ "" →
      fetch (pyStrip (if containsSub image0 "--invert"
        then pyReplace image0 "--invert" "" else image0)) = some payload →
      payload ≠ "" →
      Utility._ocr image0 ownAtts refAtts fetch = .ok (payload, containsSub image0 "--invert")) := by
  refine ⟨?_, ?_, ?_⟩
  · intro y ys hr hy
    simp [Utility._ocr, Utility.ocrFinish, Utility.ocrResolveAttachments, hr, hy]
  · intro x xs hr ho hx
    rcases hr with hr | hr <;>
      simp [Utility._ocr, Utility.ocrFinish, Utility.ocrResolveAttachments, hr, ho, hx]
  · intro payload h0 h1 hf hp
    simp only [Utility._ocr, h0, if_neg h0]
    simp only [Utility._ocr, Utility.ocrFinish, Utility.ocrResolveAttachments] at *
    simp [h0, h1, hf, hp, Utility.ocrFinish, Utility.ocrResolveAttachments]

/-- C7 (witness): concrete instances of the amended resolution order:
reply attachment over own attachment, own attachment when not a reply,
and a fetched inline URL with the "--invert" token stripped. -/
theorem c7_ocr_resolution_amended_witness :
    Utility._ocr "" ["own-a"] (some ["ref-a"]) (fun _ => none) = .ok ("ref-a", false) ∧
    Utility._ocr "" ["own-a"] none (fun _ => none) = .ok ("own-a", false) ∧
    Utility._ocr "https://i.example/p --invert" [] none (fun u => some ("payload:" ++ u)) =
      .ok ("payload:https://i.example/p", true) := by
  have h3 := (c7_ocr_resolution_amended "https://i.example/p --invert" [] none
    (fun u => some ("payload:" ++ u))).2.2 "payload:https://i.example/p"
    (by decide) (by decide) (by decide) (by decide)
  exact ⟨(c7_ocr_resolution_amended "" ["own-a"] (some ["ref-a"]) (fun _ => none)).1
      "ref-a" [] rfl (by decide),
    (c7_ocr_resolution_amended "" ["own-a"] none (fun _ => none)).2.1
      "own-a" [] (Or.inl rfl) rfl (by decide),
    h3.trans (by decide)⟩

/-- C9: "discordpy" resolves to the same documentation base URL as "dpy"
(https://discordpy.readthedocs.io/en/stable), "python3" to the same as
"py" (https://docs.python.org/3), and any location whose lowercase form
is not "list" and not a synonym, that is not a DESTINATIONS key and does
not match the URL pattern, is rejected with the invalid-location
error. -/
theorem c9_rtfm_alias_normalization :
    Utility.rtfmResolve "discordpy" = some "https://discordpy.readthedocs.io/en/stable" ∧
    Utility.rtfmResolve "dpy" = some "https://discordpy.readthedocs.io/en/stable" ∧
    Utility.rtfmResolve "python3" = some "https://docs.python.org/3" ∧
    Utility.rtfmResolve "py" = some "https://docs.python.org/3" ∧
    ∀ arg : String, pyLower arg ≠ "list" →
      pyLower arg ∉ ["discord.py", "discordpy"] →
      pyLower arg ∉ ["discord.py2", "discord.py-2", "discordpy2", "discordpy-2", "dpy-2"] →
      pyLower arg ∉ ["enhanced-discord.py", "enhanced-discordpy"] →
      pyLower arg ∉ ["python", "python3", "py3"] →
      pyLower arg ∉ ["python2"] →
      List.lookup arg Utility.DESTINATIONS = none →
      Utility.matchesUrlRegex arg = false →
      Utility.IdevisionLocation.convert arg =
        .error (arg ++ " is not a valid rtfm location!") := by
  refine ⟨rfl, rfl, rfl, rfl, ?_⟩
  intro arg hlist h1 h2 h3 h4 h5 hdest hurl
  simp only [Utility.IdevisionLocation.convert]
  rw [if_neg hlist, if_neg h1, if_neg h2, if_neg h3, if_neg h4, if_neg h5, hdest]
  simp [hurl]

/-- C9 (witness): the location "pie" is neither "list", a synonym, a
DESTINATIONS key, nor a URL, and is rejected with the invalid-location
error. -/
theorem c9_rtfm_alias_normalization_witness :
    pyLower "pie" ≠ "list" ∧
    List.lookup "pie" Utility.DESTINATIONS = none ∧
    Utility.matchesUrlRegex "pie" = false ∧
    Utility.IdevisionLocation.convert "pie" =
      .error ("pie" ++ " is not a valid rtfm location!") := by
  exact ⟨by decide, by decide, by decide,
    c9_rtfm_alias_normalization.2.2.2.2 "pie" (by decide) (by decide) (by decide)
      (by decide) (by decide) (by decide) (by decide) (by decide)⟩

/-- C10: the bot core's run entry point discards every positional and
keyword argument (including any explicitly supplied token) and always
connects with the value of the TOKEN environment variable. -/
theorem c10_run_token_from_env (env : String → Option String)
    (args : List String) (kwargs : List (String × String))
    (args2 : List String) (kwargs2 : List (String × String)) :
    Nexus.run env args kwargs = env "TOKEN" ∧
    Nexus.run env args kwargs = Nexus.run env args2 kwargs2 := ⟨rfl, rfl⟩
